import Mathlib

/-!
Verification of the paper_research_agent repository.

Python strings are embedded as lists of characters (`PyStr`), so that
`len`, slicing and concatenation of the source translate to `List.length`,
`List.drop`/`List.take` and `List.append`.  `str.strip()` is `pyStrip`
(both ends, whitespace), `str.startswith` is `pyStartswith`, and Python's
`int()` constructor is `pyInt?`, which returns `none` where `int()` raises
`ValueError` (the embedding of `try: ... except ValueError`).
-/

/-- Python `str` as a list of characters. -/
abbrev PyStr := List Char

/-- `str.strip()`: drop whitespace from both ends. -/
def pyStrip (s : PyStr) : PyStr :=
  ((s.dropWhile Char.isWhitespace).reverse.dropWhile Char.isWhitespace).reverse

/-- `pat.startswith`-style test: `pyStartswith p s` is true when `p` is an
initial segment of `s` (mirrors Python `s.startswith(p)`). -/
def pyStartswith : PyStr → PyStr → Bool
  | [], _ => true
  | _ :: _, [] => false
  | p :: ps, c :: cs => p == c && pyStartswith ps cs

/-- Digit string tail of Python `int()`: ASCII digits, where a single
underscore may separate two digits.  `acc` is the value read so far. -/
def digitsVal : List Char → Nat → Option Nat
  | [], acc => some acc
  | '_' :: c :: cs, acc =>
      if c.isDigit then digitsVal cs (acc * 10 + (c.toNat - 48)) else none
  | ['_'], _ => none
  | c :: cs, acc =>
      if c.isDigit then digitsVal cs (acc * 10 + (c.toNat - 48)) else none

/-- Python `int(s)` on a decimal string: strips whitespace, allows one
leading `+` or `-`, then requires ASCII digits (underscores between
digits).  `none` models `ValueError`. -/
def pyInt? (s : PyStr) : Option Int :=
  match pyStrip s with
  | '+' :: c :: cs =>
      if c.isDigit then (digitsVal cs (c.toNat - 48)).map Int.ofNat else none
  | '-' :: c :: cs =>
      if c.isDigit then (digitsVal cs (c.toNat - 48)).map (fun n => -(n : Int))
      else none
  | c :: cs =>
      if c.isDigit then (digitsVal cs (c.toNat - 48)).map Int.ofNat else none
  | [] => none

/-- `OpenAlexSearch._convert_filter_value` (openalex_search.py, lines 33-74):
normalize a year-filter expression into OpenAlex range syntax. -/
def convert_filter_value (value : PyStr) : PyStr :=
  let v := pyStrip value
  if pyStartswith ['>', '='] v then
    pyStrip (v.drop 2) ++ ['-']
  else if pyStartswith ['<', '='] v then
    '-' :: pyStrip (v.drop 2)
  else if pyStartswith ['>'] v then
    match pyInt? (pyStrip (v.drop 1)) with
    | some n => (toString (n + 1)).toList ++ ['-']
    | none => v
  else if pyStartswith ['<'] v then
    match pyInt? (pyStrip (v.drop 1)) with
    | some n => '-' :: (toString (n - 1)).toList
    | none => v
  else v

lemma pyStartswith_head {p q : Char} {ps qs s : PyStr}
    (hp : pyStartswith (p :: ps) s = true) (hq : pyStartswith (q :: qs) s = true) :
    p = q := by
  cases s with
  | nil => simp [pyStartswith] at hp
  | cons c cs =>
    simp only [pyStartswith, Bool.and_eq_true, beq_iff_eq] at hp hq
    exact hp.1.trans hq.1.symm

lemma pyStartswith_single {p : Char} {ps s : PyStr}
    (hp : pyStartswith (p :: ps) s = true) : pyStartswith [p] s = true := by
  cases s with
  | nil => simp [pyStartswith] at hp
  | cons c cs =>
    simp only [pyStartswith, Bool.and_eq_true, beq_iff_eq] at hp ⊢
    exact ⟨hp.1, trivial⟩

example : convert_filter_value (String.toList ">=2020") = String.toList "2020-" := by decide
example : convert_filter_value (String.toList "<=2020") = String.toList "-2020" := by decide
example : convert_filter_value (String.toList ">2020") = String.toList "2021-" := by decide
example : convert_filter_value (String.toList "<2020") = String.toList "-2019" := by decide
example : convert_filter_value (String.toList ">abc") = String.toList ">abc" := by decide
example : convert_filter_value (String.toList "2020-2023") = String.toList "2020-2023" := by decide

/-- C1: on a trimmed input, the year-filter normalizer maps `">=Y"` to
`"Y-"`, `"<=Y"` to `"-Y"`, `">Y"` with integer `Y` to `"(Y+1)-"`, `"<Y"`
with integer `Y` to `"-(Y-1)"`; a non-numeric suffix after `">"` or `"<"`
and an unrecognized leading form are returned unchanged.  The function is
a total Lean function, so it never raises. -/
theorem convert_filter_value_spec (s : PyStr) (h : pyStrip s = s) :
    (pyStartswith ['>', '='] s = true →
      convert_filter_value s = pyStrip (s.drop 2) ++ ['-']) ∧
    (pyStartswith ['<', '='] s = true →
      convert_filter_value s = '-' :: pyStrip (s.drop 2)) ∧
    (∀ n : Int, pyStartswith ['>', '='] s = false → pyStartswith ['>'] s = true →
      pyInt? (pyStrip (s.drop 1)) = some n →
      convert_filter_value s = (toString (n + 1)).toList ++ ['-']) ∧
    (pyStartswith ['>', '='] s = false → pyStartswith ['>'] s = true →
      pyInt? (pyStrip (s.drop 1)) = none → convert_filter_value s = s) ∧
    (∀ n : Int, pyStartswith ['<', '='] s = false → pyStartswith ['<'] s = true →
      pyInt? (pyStrip (s.drop 1)) = some n →
      convert_filter_value s = '-' :: (toString (n - 1)).toList) ∧
    (pyStartswith ['<', '='] s = false → pyStartswith ['<'] s = true →
      pyInt? (pyStrip (s.drop 1)) = none → convert_filter_value s = s) ∧
    (pyStartswith ['>'] s = false → pyStartswith ['<'] s = false →
      convert_filter_value s = s) := by
  refine ⟨?_, ?_, ?_, ?_, ?_, ?_, ?_⟩
  · intro hp
    simp [convert_filter_value, h, hp]
  · intro hp
    have h1 : pyStartswith ['>', '='] s = false := by
      by_contra hc
      rw [Bool.not_eq_false] at hc
      exact absurd (pyStartswith_head hc hp) (by decide)
    simp [convert_filter_value, h, h1, hp]
  · intro n h1 hp hint
    rw [List.drop_one] at hint
    have h2 : pyStartswith ['<', '='] s = false := by
      by_contra hc
      rw [Bool.not_eq_false] at hc
      exact absurd (pyStartswith_head hc hp) (by decide)
    simp [convert_filter_value, h, h1, h2, hp, hint]
  · intro h1 hp hint
    rw [List.drop_one] at hint
    have h2 : pyStartswith ['<', '='] s = false := by
      by_contra hc
      rw [Bool.not_eq_false] at hc
      exact absurd (pyStartswith_head hc hp) (by decide)
    simp [convert_filter_value, h, h1, h2, hp, hint]
  · intro n h2 hp hint
    rw [List.drop_one] at hint
    have h1 : pyStartswith ['>', '='] s = false := by
      by_contra hc
      rw [Bool.not_eq_false] at hc
      exact absurd (pyStartswith_head hc hp) (by decide)
    have h3 : pyStartswith ['>'] s = false := by
      by_contra hc
      rw [Bool.not_eq_false] at hc
      exact absurd (pyStartswith_head hc hp) (by decide)
    simp [convert_filter_value, h, h1, h2, h3, hp, hint]
  · intro h2 hp hint
    rw [List.drop_one] at hint
    have h1 : pyStartswith ['>', '='] s = false := by
      by_contra hc
      rw [Bool.not_eq_false] at hc
      exact absurd (pyStartswith_head hc hp) (by decide)
    have h3 : pyStartswith ['>'] s = false := by
      by_contra hc
      rw [Bool.not_eq_false] at hc
      exact absurd (pyStartswith_head hc hp) (by decide)
    simp [convert_filter_value, h, h1, h2, h3, hp, hint]
  · intro h3 h4
    have h1 : pyStartswith ['>', '='] s = false := by
      by_contra hc
      rw [Bool.not_eq_false] at hc
      exact absurd (pyStartswith_single hc) (by simp [h3])
    have h2 : pyStartswith ['<', '='] s = false := by
      by_contra hc
      rw [Bool.not_eq_false] at hc
      exact absurd (pyStartswith_single hc) (by simp [h4])
    simp [convert_filter_value, h, h1, h2, h3, h4]

/-- Witness for C1 at the concrete input `">2020"`. -/
theorem convert_filter_value_spec_witness :
    (pyStrip (String.toList ">2020") = String.toList ">2020" ∧
      pyStartswith ['>', '='] (String.toList ">2020") = false ∧
      pyStartswith ['>'] (String.toList ">2020") = true ∧
      pyInt? (pyStrip ((String.toList ">2020").drop 1)) = some 2020) ∧
    convert_filter_value (String.toList ">2020") =
      (toString ((2020 : Int) + 1)).toList ++ ['-'] :=
  ⟨⟨by decide, by decide, by decide, by decide⟩,
    (convert_filter_value_spec (String.toList ">2020") (by decide)).2.2.1 2020
      (by decide) (by decide) (by decide)⟩

/-!
`QueryProcessor` (src/utils/query_processor.py).  `extract_keywords`
delegates to an LLM (with a regex fallback), i.e. to the outside world, so
it is passed to the pure dispatch logic as an oracle
`extract : PyStr → Nat → List PyStr` (text, max_keywords ↦ keywords).
-/

/-- `QueryProcessor.optimize_query` (query_processor.py, lines 166-200).
`" ".join(keywords) if keywords else query.strip()` is the Python
truthiness test on the keyword list. -/
def optimize_query (extract : PyStr → Nat → List PyStr)
    (query : PyStr) (method : String) (max_keywords : Nat) : PyStr :=
  if method = "original" then
    pyStrip query
  else if method = "keywords" then
    let keywords := extract query max_keywords
    if keywords ≠ [] then List.intercalate [' '] keywords else pyStrip query
  else
    if 50 < query.length then
      let keywords := extract query max_keywords
      if keywords ≠ [] then List.intercalate [' '] keywords else pyStrip query
    else
      pyStrip query

/-- C4 (amended): `"auto"` dispatches on the UNtrimmed query length: it
behaves as `"keywords"` when `len(query) > 50` and as `"original"`
otherwise. -/
theorem optimize_query_auto_untrimmed (extract : PyStr → Nat → List PyStr)
    (query : PyStr) (max_keywords : Nat) :
    optimize_query extract query "auto" max_keywords =
      if 50 < query.length then optimize_query extract query "keywords" max_keywords
      else optimize_query extract query "original" max_keywords := by
  by_cases h : 50 < query.length <;> simp [optimize_query, h]

/-- C4 counterexample: for the query of thirty `a`s followed by thirty
spaces the trimmed length is 30 ≤ 50, so the claim says `"auto"` returns
the trimmed input verbatim; but the untrimmed length is 60 > 50, so the
code takes the keyword branch, which can differ from the trimmed input. -/
theorem optimize_query_auto_trimmed_counterexample :
    (pyStrip (List.replicate 30 'a' ++ List.replicate 30 ' ')).length ≤ 50 ∧
    optimize_query (fun _ _ => [['x']])
        (List.replicate 30 'a' ++ List.replicate 30 ' ') "auto" 10 ≠
      optimize_query (fun _ _ => [['x']])
        (List.replicate 30 'a' ++ List.replicate 30 ' ') "original" 10 := by
  constructor
  · decide
  · decide

/-- C10: any method other than `"original"` and `"keywords"` falls
through to the `"auto"` branch, so it behaves exactly as `"auto"`. -/
theorem optimize_query_unknown_method (extract : PyStr → Nat → List PyStr)
    (query : PyStr) (max_keywords : Nat) (method : String)
    (h1 : method ≠ "original") (h2 : method ≠ "keywords") :
    optimize_query extract query method max_keywords =
      optimize_query extract query "auto" max_keywords := by
  simp [optimize_query, h1, h2]

/-- Witness for C10 at the concrete method `"AUTO"`. -/
theorem optimize_query_unknown_method_witness :
    (("AUTO" : String) ≠ "original" ∧ ("AUTO" : String) ≠ "keywords") ∧
    optimize_query (fun _ _ => [['x']]) ['a'] "AUTO" 10 =
      optimize_query (fun _ _ => [['x']]) ['a'] "auto" 10 :=
  ⟨⟨by decide, by decide⟩,
    optimize_query_unknown_method (fun _ _ => [['x']]) ['a'] 10 "AUTO"
      (by decide) (by decide)⟩

/-- One of the sentence-boundary characters of
`re.split(r'[.!?。！？]\s*', query)`. -/
def isSentenceDelim (c : Char) : Bool :=
  c = '.' || c = '!' || c = '?' || c = '。' || c = '！' || c = '？'

/-- Automaton for `re.split(r'[.!?。！？]\s*', query)`: `cur` is the field
being read, `skipping` is true while consuming the `\s*` run that follows
a delimiter. -/
def splitSentencesAux : List Char → PyStr → Bool → List PyStr
  | [], cur, _ => [cur]
  | c :: cs, cur, skipping =>
    if skipping && c.isWhitespace then
      splitSentencesAux cs cur true
    else if isSentenceDelim c then
      cur :: splitSentencesAux cs [] true
    else
      splitSentencesAux cs (cur ++ [c]) false

/-- `re.split(r'[.!?。！？]\s*', query)` (query_processor.py, line 221). -/
def splitSentences (query : PyStr) : List PyStr :=
  splitSentencesAux query [] false

/-- Loop body of `split_long_query` (query_processor.py, lines 225-238):
state is `(sub_queries, current_query)`. -/
def splitStep (max_length : Nat) (st : List PyStr × PyStr) (sentence : PyStr) :
    List PyStr × PyStr :=
  let s := pyStrip sentence
  if s = [] then st
  else if st.2.length + s.length + 1 ≤ max_length then
    (st.1, if st.2 ≠ [] then st.2 ++ [' '] ++ s else s)
  else
    ((if st.2 ≠ [] then st.1 ++ [st.2] else st.1), s)

/-- `QueryProcessor.split_long_query` (query_processor.py, lines 202-243). -/
def split_long_query (query : PyStr) (max_length : Nat) : List PyStr :=
  if query.length ≤ max_length then [query]
  else
    let st := (splitSentences query).foldl (splitStep max_length) ([], [])
    let subs := if st.2 ≠ [] then st.1 ++ [st.2] else st.1
    if subs ≠ [] then subs else [query.take max_length]

/-- The stripped, nonempty sentences of the query, in original order. -/
def strippedSentences (query : PyStr) : List PyStr :=
  ((splitSentences query).map pyStrip).filter (fun s => s ≠ [])

example : splitSentences (String.toList "a. b.c") =
    [String.toList "a", String.toList "b", String.toList "c"] := by decide
example : splitSentences (String.toList "ab") = [String.toList "ab"] := by decide
example : splitSentences (String.toList "a.. b.") =
    [['a'], [], ['b'], []] := by decide
example : split_long_query (String.toList "one two. three four. five") 12 =
    [String.toList "one two", String.toList "three four", String.toList "five"] := by decide
example : split_long_query (String.toList "one. two.") 8 =
    [String.toList "one two"] := by decide
example : split_long_query (String.toList "!!!???...!!") 4 =
    [String.toList "!!!?"] := by decide

lemma intercalate_cons_of_ne_nil (sep a : PyStr) {l : List PyStr} (h : l ≠ []) :
    List.intercalate sep (a :: l) = a ++ sep ++ List.intercalate sep l := by
  cases l with
  | nil => exact absurd rfl h
  | cons b t =>
    simp [List.intercalate, List.intersperse_cons_cons, List.append_assoc]

lemma intercalate_append_pair (sep a b : PyStr) :
    ∀ (xs ys : List PyStr),
      List.intercalate sep (xs ++ (a ++ sep ++ b) :: ys) =
        List.intercalate sep (xs ++ a :: b :: ys)
  | [], ys => by
    cases ys with
    | nil =>
      simp [List.intercalate, List.intersperse_cons_cons, List.append_assoc]
    | cons y t =>
      rw [List.nil_append, List.nil_append,
        intercalate_cons_of_ne_nil sep _ (List.cons_ne_nil y t),
        intercalate_cons_of_ne_nil sep a (List.cons_ne_nil b (y :: t)),
        intercalate_cons_of_ne_nil sep b (List.cons_ne_nil y t)]
      simp [List.append_assoc]
  | x :: xs, ys => by
    rw [List.cons_append, List.cons_append,
      intercalate_cons_of_ne_nil sep x (by simp),
      intercalate_cons_of_ne_nil sep x (by simp),
      intercalate_append_pair sep a b xs ys]

/-- If every sentence strips to the empty string, the loop of
`split_long_query` accumulates nothing. -/
lemma splitStep_fold_of_all_blank (m : Nat) :
    ∀ (ss : List PyStr) (st : List PyStr × PyStr),
      (∀ t ∈ ss, pyStrip t = []) → ss.foldl (splitStep m) st = st
  | [], _, _ => rfl
  | t :: ss, st, h => by
    have ht : pyStrip t = [] := h t (List.mem_cons_self t ss)
    rw [List.foldl_cons]
    have hstep : splitStep m st t = st := by simp [splitStep, ht]
    rw [hstep]
    exact splitStep_fold_of_all_blank m ss st (fun u hu => h u (List.mem_cons_of_mem t hu))

/-- Every string produced by the loop of `split_long_query` is either
inherited from the initial state, short enough, or a single stripped
sentence. -/
lemma splitStep_fold_mem (m : Nat) :
    ∀ (ss : List PyStr) (st : List PyStr × PyStr) (x : PyStr),
      (x ∈ (ss.foldl (splitStep m) st).1 ∨ x = (ss.foldl (splitStep m) st).2) →
      (x ∈ st.1 ∨ x = st.2 ∨ x.length ≤ m ∨ ∃ t ∈ ss, x = pyStrip t)
  | [], st, x, hx => by
    rcases hx with hx | hx
    · exact Or.inl hx
    · exact Or.inr (Or.inl hx)
  | t :: ss, st, x, hx => by
    rw [List.foldl_cons] at hx
    rcases splitStep_fold_mem m ss (splitStep m st t) x hx with h1 | h2 | h3 | h4
    · -- x entered the accumulated list at this step
      by_cases hb : pyStrip t = []
      · simp [splitStep, hb] at h1
        exact Or.inl h1
      · by_cases hfit : st.2.length + (pyStrip t).length + 1 ≤ m
        · simp [splitStep, hb, hfit] at h1
          exact Or.inl h1
        · simp [splitStep, hb, hfit] at h1
          by_cases hcur : st.2 = []
          · simp [hcur] at h1
            exact Or.inl h1
          · simp [hcur] at h1
            rcases h1 with h1 | h1
            · exact Or.inl h1
            · exact Or.inr (Or.inl h1)
    · -- x is the current accumulator after this step
      by_cases hb : pyStrip t = []
      · simp [splitStep, hb] at h2
        exact Or.inr (Or.inl h2)
      · by_cases hfit : st.2.length + (pyStrip t).length + 1 ≤ m
        · simp [splitStep, hb, hfit] at h2
          by_cases hcur : st.2 = []
          · simp [hcur] at h2
            exact Or.inr (Or.inr (Or.inr ⟨t, List.mem_cons_self t ss, h2⟩))
          · simp [hcur] at h2
            have : x.length ≤ m := by
              rw [h2]
              simp only [List.length_append, List.length_cons, List.length_nil]
              omega
            exact Or.inr (Or.inr (Or.inl this))
        · simp [splitStep, hb, hfit] at h2
          exact Or.inr (Or.inr (Or.inr ⟨t, List.mem_cons_self t ss, h2⟩))
    · exact Or.inr (Or.inr (Or.inl h3))
    · rcases h4 with ⟨u, hu, hx⟩
      exact Or.inr (Or.inr (Or.inr ⟨u, List.mem_cons_of_mem t hu, hx⟩))

/-- Final flush of `split_long_query`: append the pending `current_query`
when it is nonempty (query_processor.py, lines 240-241). -/
def gatherSubs (st : List PyStr × PyStr) : List PyStr :=
  if st.2 ≠ [] then st.1 ++ [st.2] else st.1

lemma split_long_query_eq_gather (q : PyStr) (m : Nat) (h : ¬ q.length ≤ m) :
    split_long_query q m =
      (if gatherSubs ((splitSentences q).foldl (splitStep m) ([], [])) ≠ [] then
        gatherSubs ((splitSentences q).foldl (splitStep m) ([], []))
      else [q.take m]) := by
  simp only [split_long_query, gatherSubs, h, if_false]

/-- The loop of `split_long_query` preserves the space-joined content: the
gathered sub-queries join to the initial state joined with the stripped
nonempty sentences. -/
lemma splitStep_fold_intercalate (m : Nat) :
    ∀ (ss : List PyStr) (st : List PyStr × PyStr),
      List.intercalate [' '] (gatherSubs (ss.foldl (splitStep m) st)) =
        List.intercalate [' ']
          (gatherSubs st ++ (ss.map pyStrip).filter (fun s => s ≠ []))
  | [], st => by simp
  | t :: ss, st => by
    rw [List.foldl_cons, splitStep_fold_intercalate m ss (splitStep m st t)]
    by_cases hb : pyStrip t = []
    · simp [splitStep, hb]
    · by_cases hfit : st.2.length + (pyStrip t).length + 1 ≤ m
      · by_cases hcur : st.2 = []
        · simp [splitStep, hb, hfit, hcur, gatherSubs]
        · have hstep : splitStep m st t = (st.1, st.2 ++ [' '] ++ pyStrip t) := by
            simp [splitStep, hb, hfit, hcur]
          rw [hstep]
          have hg1 : gatherSubs (st.1, st.2 ++ [' '] ++ pyStrip t) =
              st.1 ++ [st.2 ++ [' '] ++ pyStrip t] := by
            simp [gatherSubs]
          have hg2 : gatherSubs st = st.1 ++ [st.2] := by
            simp [gatherSubs, hcur]
          rw [hg1, hg2]
          have hpair := intercalate_append_pair [' '] st.2 (pyStrip t) st.1
            (((ss.map pyStrip).filter (fun s => s ≠ [])))
          simp only [List.append_assoc, List.cons_append, List.singleton_append] at hpair ⊢
          rw [List.map_cons, List.filter_cons]
          simp only [hb, decide_not, List.cons_append]
          simpa using hpair
      · have hstep : splitStep m st t = (gatherSubs st, pyStrip t) := by
          simp [splitStep, hb, hfit, gatherSubs]
        rw [hstep]
        have hg1 : gatherSubs (gatherSubs st, pyStrip t) =
            gatherSubs st ++ [pyStrip t] := by
          simp [gatherSubs, hb]
        rw [hg1, List.map_cons, List.filter_cons]
        simp only [hb, decide_not, List.append_assoc, List.cons_append,
          List.singleton_append]
        simp

lemma intercalate_ne_nil (sep : PyStr) :
    ∀ (l : List PyStr), l ≠ [] → (∀ x ∈ l, x ≠ []) → List.intercalate sep l ≠ []
  | [], h, _ => absurd rfl h
  | a :: t, _, hx => by
    cases t with
    | nil =>
      simpa [List.intercalate] using hx a (List.mem_cons_self a [])
    | cons b u =>
      rw [intercalate_cons_of_ne_nil sep a (List.cons_ne_nil b u)]
      have : a ≠ [] := hx a (List.mem_cons_self a (b :: u))
      simp [this]

lemma strippedSentences_mem_ne_nil (q : PyStr) :
    ∀ x ∈ strippedSentences q, x ≠ [] := by
  intro x hx
  have := List.of_mem_filter hx
  simpa using this

/-- C3 (amended): (1) an input of length ≤ `max_length` yields exactly one
element equal to the input; (2) every returned sub-query has length
≤ `max_length` OR is a single stripped sentence of the input (a single
sentence longer than `max_length` is passed through whole, not only in the
no-boundary degenerate case); (3) on the non-degenerate path the
sub-queries, joined by single spaces, equal the stripped nonempty
sentences joined by single spaces — sentence order and content are
preserved; (4) when every sentence strips to empty, the single result is
the input truncated to exactly `max_length` characters. -/
theorem split_long_query_spec :
    (∀ (q : PyStr) (m : Nat), q.length ≤ m → split_long_query q m = [q]) ∧
    (∀ (q : PyStr) (m : Nat) (s : PyStr), s ∈ split_long_query q m →
      s.length ≤ m ∨ ∃ t ∈ splitSentences q, s = pyStrip t) ∧
    (∀ (q : PyStr) (m : Nat), m < q.length → strippedSentences q ≠ [] →
      List.intercalate [' '] (split_long_query q m) =
        List.intercalate [' '] (strippedSentences q)) ∧
    (∀ (q : PyStr) (m : Nat), m < q.length → strippedSentences q = [] →
      split_long_query q m = [q.take m] ∧ (q.take m).length = m) := by
  have hgather : ∀ (q : PyStr) (m : Nat),
      List.intercalate [' ']
          (gatherSubs ((splitSentences q).foldl (splitStep m) ([], []))) =
        List.intercalate [' '] (strippedSentences q) := by
    intro q m
    have := splitStep_fold_intercalate m (splitSentences q) ([], [])
    simpa [gatherSubs, strippedSentences] using this
  have hne : ∀ (q : PyStr) (m : Nat), strippedSentences q ≠ [] →
      gatherSubs ((splitSentences q).foldl (splitStep m) ([], [])) ≠ [] := by
    intro q m hq hnil
    have h1 := hgather q m
    rw [hnil] at h1
    have h2 : List.intercalate [' '] ([] : List PyStr) = [] := by
      simp [List.intercalate]
    rw [h2] at h1
    exact intercalate_ne_nil [' '] (strippedSentences q) hq
      (strippedSentences_mem_ne_nil q) h1.symm
  refine ⟨?_, ?_, ?_, ?_⟩
  · intro q m h
    simp [split_long_query, h]
  · intro q m s hs
    by_cases h : q.length ≤ m
    · simp [split_long_query, h] at hs
      subst hs
      exact Or.inl h
    · rw [split_long_query_eq_gather q m h] at hs
      by_cases hg : gatherSubs ((splitSentences q).foldl (splitStep m) ([], [])) ≠ []
      · rw [if_pos hg] at hs
        have hmem : s ∈ ((splitSentences q).foldl (splitStep m) ([], [])).1 ∨
            s = ((splitSentences q).foldl (splitStep m) ([], [])).2 := by
          unfold gatherSubs at hs
          by_cases hc : ((splitSentences q).foldl (splitStep m) ([], [])).2 = []
          · simp [hc] at hs
            exact Or.inl hs
          · simp [hc] at hs
            rcases hs with hs | hs
            · exact Or.inl hs
            · exact Or.inr hs
        rcases splitStep_fold_mem m (splitSentences q) ([], []) s hmem with
          h1 | h2 | h3 | h4
        · simp at h1
        · rw [h2]
          exact Or.inl (Nat.zero_le m)
        · exact Or.inl h3
        · exact Or.inr h4
      · rw [if_neg hg] at hs
        simp at hs
        subst hs
        exact Or.inl (by simp)
  · intro q m h hq
    have hle : ¬ q.length ≤ m := by omega
    rw [split_long_query_eq_gather q m hle, if_pos (hne q m hq)]
    exact hgather q m
  · intro q m h hq
    have hle : ¬ q.length ≤ m := by omega
    have hblank : ∀ t ∈ splitSentences q, pyStrip t = [] := by
      intro t ht
      by_contra hc
      have : pyStrip t ∈ strippedSentences q := by
        refine List.mem_filter.mpr ⟨List.mem_map_of_mem pyStrip ht, by simpa using hc⟩
      rw [hq] at this
      exact absurd this (List.not_mem_nil _)
    have hfold := splitStep_fold_of_all_blank m (splitSentences q) ([], []) hblank
    constructor
    · rw [split_long_query_eq_gather q m hle, hfold]
      simp [gatherSubs]
    · simp only [List.length_take]
      omega

/-- C3 counterexample: with `max_length = 5` and the query
`"aaaaaaaaaa. bb"` a sentence boundary exists and a sub-query was
accumulated, yet the first returned sub-query has length 10 > 5 and the
result is not the truncation to 5 characters. -/
theorem split_long_query_counterexample :
    split_long_query (String.toList "aaaaaaaaaa. bb") 5 =
      [String.toList "aaaaaaaaaa", String.toList "bb"] ∧
    5 < (String.toList "aaaaaaaaaa").length ∧
    split_long_query (String.toList "aaaaaaaaaa. bb") 5 ≠
      [(String.toList "aaaaaaaaaa. bb").take 5] := by
  refine ⟨by decide, by decide, by decide⟩

/-- Witness for C3 at the concrete inputs `"short query"`, `m = 50` and
`"one two. three four. five"`, `m = 12`. -/
theorem split_long_query_spec_witness :
    ((String.toList "short query").length ≤ 50 ∧
      split_long_query (String.toList "short query") 50 =
        [String.toList "short query"]) ∧
    (12 < (String.toList "one two. three four. five").length ∧
      strippedSentences (String.toList "one two. three four. five") ≠ [] ∧
      List.intercalate [' ']
          (split_long_query (String.toList "one two. three four. five") 12) =
        List.intercalate [' ']
          (strippedSentences (String.toList "one two. three four. five"))) :=
  ⟨⟨by decide, split_long_query_spec.1 (String.toList "short query") 50 (by decide)⟩,
    ⟨by decide, by decide,
      split_long_query_spec.2.2.1 (String.toList "one two. three four. five") 12
        (by decide) (by decide)⟩⟩

/-!
`OpenAlexSearch.get_all_papers` (openalex_search.py, lines 143-196).  The
network call `search_papers` is abstracted as a transport
`fetch : Nat → PageResult α` that maps a page number to the page's
`results` list and the `meta["page_count"]` it reports; records are an
opaque type `α`.  The `while True` loop is embedded with a fuel argument;
every theorem supplies enough fuel for the run it describes.  The loop
also records the pages it requested, in order, as the second component.
-/

/-- One page of a search response: the `results` array and the
`meta["page_count"]` field (default 1 in the code). -/
structure PageResult (α : Type) where
  results : List α
  page_count : Nat

/-- Python truthiness of the `max_results : Optional[int]` argument:
`None` and `0` are falsy.  Used by `if max_results and ...`. -/
def pyTruthy : Option Nat → Bool
  | none => false
  | some k => k != 0

/-- The `while True` loop of `get_all_papers`: state is the page number
and the accumulated `all_papers`; returns the papers and the list of
requested page numbers. -/
def getAllLoop {α : Type} (fetch : Nat → PageResult α) (max_results : Option Nat) :
    Nat → Nat → List α → List α × List Nat
  | 0, _, acc => (acc, [])
  | fuel + 1, page, acc =>
    let r := fetch page
    if r.results.isEmpty then (acc, [page])
    else
      let acc2 := acc ++ r.results
      if pyTruthy max_results ∧ max_results.getD 0 ≤ acc2.length then
        (acc2.take (max_results.getD 0), [page])
      else if r.page_count ≤ page then (acc2, [page])
      else
        let rest := getAllLoop fetch max_results fuel (page + 1) acc2
        (rest.1, page :: rest.2)

/-- `OpenAlexSearch.get_all_papers`: start at page 1 with an empty
accumulator. -/
def get_all_papers {α : Type} (fetch : Nat → PageResult α)
    (max_results : Option Nat) (fuel : Nat) : List α :=
  (getAllLoop fetch max_results fuel 1 []).1

/-- Pages requested by a run of `get_all_papers`. -/
def requestedPages {α : Type} (fetch : Nat → PageResult α)
    (max_results : Option Nat) (fuel : Nat) : List Nat :=
  (getAllLoop fetch max_results fuel 1 []).2

/-- Mock transport over a fixed list of pages: page `n` serves the
`n`-th page (1-based, empty past the end) and reports
`page_count = pages.length`. -/
def mkFetch {α : Type} (pages : List (List α)) (n : Nat) : PageResult α :=
  ⟨pages.getD (n - 1) [], pages.length⟩

example : get_all_papers (mkFetch [[1, 2], [3, 4], [5]]) none 4 = [1, 2, 3, 4, 5] := by decide
example : get_all_papers (mkFetch [[1, 2], [3, 4], [5]]) (some 3) 4 = [1, 2, 3] := by decide
example : get_all_papers (mkFetch [[1, 2], [3, 4], [5]]) (some 0) 4 = [1, 2, 3, 4, 5] := by decide
example : requestedPages (mkFetch [[1, 2], [3, 4], [5]]) none 4 = [1, 2, 3] := by decide
example : get_all_papers (mkFetch [[1, 2], [], [5]]) none 4 = [1, 2] := by decide

/-- The request trace of the loop is always a block of consecutive page
numbers starting at the page it was entered with. -/
lemma getAllLoop_trace {α : Type} (fetch : Nat → PageResult α) (maxr : Option Nat) :
    ∀ (fuel page : Nat) (acc : List α),
      (getAllLoop fetch maxr fuel page acc).2 =
        List.range' page (getAllLoop fetch maxr fuel page acc).2.length
  | 0, page, acc => by simp [getAllLoop]
  | fuel + 1, page, acc => by
    have ih := getAllLoop_trace fetch maxr fuel (page + 1)
      (acc ++ (fetch page).results)
    simp only [getAllLoop]
    split
    · simp
    · split
      · simp
      · split
        · simp
        · simp only [List.length_cons, List.range'_succ]
          exact congrArg (List.cons page) ih

/-- With no `max_results`, over a mock transport whose pages are all
nonempty, the loop returns the remaining pages flattened in order and
requests the remaining pages sequentially. -/
lemma getAllLoop_none {α : Type} (pages : List (List α))
    (hne : ∀ p ∈ pages, p ≠ []) :
    ∀ (fuel page : Nat) (acc : List α), 1 ≤ page → page ≤ pages.length →
      pages.length < page + fuel →
      getAllLoop (mkFetch pages) none fuel page acc =
        (acc ++ (pages.drop (page - 1)).flatten,
          List.range' page (pages.length - page + 1))
  | 0, page, acc, h1, h2, h3 => by omega
  | fuel + 1, page, acc, h1, h2, h3 => by
    have hidx : page - 1 < pages.length := by omega
    have hget : (mkFetch pages page).results = pages[page - 1] := by
      simp [mkFetch, List.getElem?_eq_getElem hidx]
    have hdrop : pages.drop (page - 1) = pages[page - 1] :: pages.drop page := by
      have := List.drop_eq_getElem_cons hidx
      rwa [Nat.sub_add_cancel h1] at this
    have hpc : (mkFetch pages page).page_count = pages.length := rfl
    have hne' : pages[page - 1] ≠ [] := hne _ (List.getElem_mem hidx)
    have hnonempty : pages[page - 1].isEmpty = false := by
      cases hpv : pages[page - 1] with
      | nil => exact absurd hpv hne'
      | cons a t => rfl
    have hmax : ¬ (pyTruthy none = true ∧
        (none : Option Nat).getD 0 ≤ (acc ++ pages[page - 1]).length) := by
      rintro ⟨hc, -⟩
      exact absurd hc (by decide)
    simp only [getAllLoop, hget, hpc]
    rw [if_neg (show ¬ pages[page - 1].isEmpty = true by simp [hnonempty])]
    rw [if_neg hmax]
    by_cases hlast : pages.length ≤ page
    · rw [if_pos hlast]
      have hcount : pages.length - page + 1 = 1 := by omega
      have hdropnil : pages.drop page = [] := List.drop_eq_nil_of_le (by omega)
      have hpage : page = pages.length := by omega
      conv_rhs => rw [hdrop, hdropnil, List.flatten_cons, List.flatten_nil,
        List.append_nil, hcount, List.range'_one]
    · rw [if_neg hlast]
      have ih := getAllLoop_none pages hne fuel (page + 1) (acc ++ pages[page - 1])
        (by omega) (by omega) (by omega)
      rw [ih]
      dsimp only
      rw [Nat.add_sub_cancel]
      have hcount : pages.length - page + 1 = (pages.length - (page + 1) + 1) + 1 := by
        omega
      conv_rhs => rw [hdrop, List.flatten_cons, ← List.append_assoc, hcount,
        List.range'_succ]

/-- With `max_results = k ≠ 0`, over a mock transport whose pages are all
nonempty, the loop returns the first `k` of the remaining records (all of
them when fewer than `k` remain). -/
lemma getAllLoop_some {α : Type} (pages : List (List α))
    (hne : ∀ p ∈ pages, p ≠ []) (k : Nat) (hk : k ≠ 0) :
    ∀ (fuel page : Nat) (acc : List α), 1 ≤ page → page ≤ pages.length →
      pages.length < page + fuel →
      (getAllLoop (mkFetch pages) (some k) fuel page acc).1 =
        (acc ++ (pages.drop (page - 1)).flatten).take k
  | 0, page, acc, h1, h2, h3 => by omega
  | fuel + 1, page, acc, h1, h2, h3 => by
    have hidx : page - 1 < pages.length := by omega
    have hget : (mkFetch pages page).results = pages[page - 1] := by
      simp [mkFetch, List.getElem?_eq_getElem hidx]
    have hdrop : pages.drop (page - 1) = pages[page - 1] :: pages.drop page := by
      have := List.drop_eq_getElem_cons hidx
      rwa [Nat.sub_add_cancel h1] at this
    have hpc : (mkFetch pages page).page_count = pages.length := rfl
    have hne' : pages[page - 1] ≠ [] := hne _ (List.getElem_mem hidx)
    have hnonempty : pages[page - 1].isEmpty = false := by
      cases hpv : pages[page - 1] with
      | nil => exact absurd hpv hne'
      | cons a t => rfl
    simp only [getAllLoop, hget, hpc]
    rw [if_neg (show ¬ pages[page - 1].isEmpty = true by simp [hnonempty])]
    by_cases hstop : k ≤ (acc ++ pages[page - 1]).length
    · rw [if_pos ⟨by simp [pyTruthy, hk], hstop⟩]
      dsimp only
      conv_rhs => rw [hdrop, List.flatten_cons, ← List.append_assoc,
        List.take_append_of_le_length hstop]
      rfl
    · rw [if_neg (fun hc => hstop hc.2)]
      by_cases hlast : pages.length ≤ page
      · rw [if_pos hlast]
        have hdropnil : pages.drop page = [] := List.drop_eq_nil_of_le (by omega)
        dsimp only
        conv_rhs => rw [hdrop, hdropnil, List.flatten_cons, List.flatten_nil,
          List.append_nil, List.take_of_length_le (by omega)]
      · rw [if_neg hlast]
        have ih := getAllLoop_some pages hne k hk fuel (page + 1)
          (acc ++ pages[page - 1]) (by omega) (by omega) (by omega)
        dsimp only
        rw [ih, Nat.add_sub_cancel]
        conv_rhs => rw [hdrop, List.flatten_cons, ← List.append_assoc]

/-- C5: over a mock transport with all pages nonempty, `get_all_papers`
with no `max_results` returns all records in page order and requests
pages 1, 2, ... sequentially; with `max_results = k`, `0 < k < N`, it
returns exactly the first `k` records; for any transport, a page with
zero results stops the loop immediately regardless of the reported page
count; and the pages any run requests are consecutive numbers starting
from the first page requested. -/
theorem get_all_papers_spec {α : Type} (pages : List (List α))
    (hne : ∀ p ∈ pages, p ≠ []) :
    (get_all_papers (mkFetch pages) none (pages.length + 1) = pages.flatten) ∧
    (pages ≠ [] →
      requestedPages (mkFetch pages) none (pages.length + 1) =
        List.range' 1 pages.length) ∧
    (∀ k : Nat, 0 < k → k < pages.flatten.length →
      get_all_papers (mkFetch pages) (some k) (pages.length + 1) =
        pages.flatten.take k) ∧
    (∀ (fetch : Nat → PageResult α) (maxr : Option Nat) (fuel page : Nat)
        (acc : List α), (fetch page).results = [] →
      getAllLoop fetch maxr (fuel + 1) page acc = (acc, [page])) ∧
    (∀ (fetch : Nat → PageResult α) (maxr : Option Nat) (fuel page : Nat)
        (acc : List α),
      (getAllLoop fetch maxr fuel page acc).2 =
        List.range' page (getAllLoop fetch maxr fuel page acc).2.length) := by
  refine ⟨?_, ?_, ?_, ?_, ?_⟩
  · by_cases hp : pages = []
    · subst hp
      rfl
    · have hlen : 0 < pages.length := List.length_pos.mpr hp
      unfold get_all_papers
      rw [getAllLoop_none pages hne (pages.length + 1) 1 [] le_rfl hlen (by omega)]
      simp
  · intro hp
    have hlen : 0 < pages.length := List.length_pos.mpr hp
    unfold requestedPages
    rw [getAllLoop_none pages hne (pages.length + 1) 1 [] le_rfl hlen (by omega)]
    have hcount : pages.length - 1 + 1 = pages.length := by omega
    rw [hcount]
  · intro k hk0 hkN
    have hp : pages ≠ [] := by
      intro h
      subst h
      simp at hkN
    have hlen : 0 < pages.length := List.length_pos.mpr hp
    unfold get_all_papers
    rw [getAllLoop_some pages hne k (by omega) (pages.length + 1) 1 [] le_rfl hlen
      (by omega)]
    simp
  · intro fetch maxr fuel page acc h
    simp [getAllLoop, h]
  · intro fetch maxr fuel page acc
    exact getAllLoop_trace fetch maxr fuel page acc

/-- Witness for C5 at the concrete transport with pages `[[1,2],[3]]`. -/
theorem get_all_papers_spec_witness :
    (∀ p ∈ [[1, 2], [3]], p ≠ ([] : List Nat)) ∧
    get_all_papers (mkFetch [[1, 2], [3]]) none ([[1, 2], [3]].length + 1) =
      ([[1, 2], [3]] : List (List Nat)).flatten ∧
    get_all_papers (mkFetch [[1, 2], [3]]) (some 2) ([[1, 2], [3]].length + 1) =
      ([[1, 2], [3]] : List (List Nat)).flatten.take 2 :=
  ⟨by decide, (get_all_papers_spec [[1, 2], [3]] (by decide)).1,
    (get_all_papers_spec [[1, 2], [3]] (by decide)).2.2.1 2 (by decide) (by decide)⟩

lemma getAllLoop_zero_eq_none {α : Type} (fetch : Nat → PageResult α) :
    ∀ (fuel page : Nat) (acc : List α),
      getAllLoop fetch (some 0) fuel page acc = getAllLoop fetch none fuel page acc
  | 0, _, _ => rfl
  | fuel + 1, page, acc => by
    have h0 : ¬ (pyTruthy (some 0) = true ∧
        (some 0 : Option Nat).getD 0 ≤ (acc ++ (fetch page).results).length) :=
      fun hc => absurd hc.1 (by decide)
    have h1 : ¬ (pyTruthy none = true ∧
        (none : Option Nat).getD 0 ≤ (acc ++ (fetch page).results).length) :=
      fun hc => absurd hc.1 (by decide)
    simp only [getAllLoop]
    by_cases he : (fetch page).results.isEmpty = true
    · rw [if_pos he, if_pos he]
    · rw [if_neg he, if_neg he, if_neg h0, if_neg h1]
      by_cases hpc : (fetch page).page_count ≤ page
      · rw [if_pos hpc, if_pos hpc]
      · rw [if_neg hpc, if_neg hpc,
          getAllLoop_zero_eq_none fetch fuel (page + 1) (acc ++ (fetch page).results)]

/-- C9: `max_results = 0` is falsy in `if max_results and ...`, so the
whole run — returned records and requested pages — is identical to
`max_results = None`: everything is fetched rather than nothing. -/
theorem get_all_papers_zero_eq_none {α : Type} (fetch : Nat → PageResult α)
    (fuel : Nat) :
    get_all_papers fetch (some 0) fuel = get_all_papers fetch none fuel ∧
    requestedPages fetch (some 0) fuel = requestedPages fetch none fuel := by
  unfold get_all_papers requestedPages
  rw [getAllLoop_zero_eq_none]
  exact ⟨rfl, rfl⟩

/-!
`PaperResearchAgent` (src/agents/paper_research_agent.py).  The two
external effects — the LLM analysis of `_collect_information` and the
whole search attempt of `execute_search` (network call, `int()` parse and
formatting) — are passed in as `Except Unit _` outcomes: `.error ()`
stands for a raised exception, caught by the corresponding
`try/except`.  Formatted papers are an opaque type `α`.
-/

/-- `ConversationState` enum (paper_research_agent.py, lines 20-24). -/
inductive ConversationState where
  | COLLECTING_INFO
  | SEARCHING
  | COMPLETED
deriving DecidableEq, Repr

/-- One entry of `conversation_history`. -/
structure Message where
  role : String
  content : String
deriving DecidableEq, Repr

/-- The `collected_info` dict, which always carries exactly these three
keys. -/
structure CollectedInfo where
  query : String
  year_filter : String
  max_results : String
deriving DecidableEq, Repr

/-- Defaults set by `__init__` and `reset`:
`{"query": "", "year_filter": "", "max_results": "25"}`. -/
def defaultCollectedInfo : CollectedInfo :=
  { query := "", year_filter := "", max_results := "25" }

/-- The mutable fields of `PaperResearchAgent`; `α` is the type of
formatted papers. -/
structure Agent (α : Type) where
  state : ConversationState
  conversation_history : List Message
  collected_info : CollectedInfo
  search_results : List α
deriving DecidableEq, Repr

/-- Result of a successful `_call_llm_for_analysis`: after the
key-backfilling at its end, all five keys are present. -/
structure AnalysisResult where
  sufficient : Bool
  extracted_query : String
  year_filter : String
  max_results : String
  question : String
deriving DecidableEq, Repr

/-- `PaperResearchAgent._collect_information` (lines 80-123): `analysis`
is the outcome of the analysis step; `.error ()` is a raised exception,
landing in the `except` block that uses the raw input as the query. -/
def collect_information {α : Type} (analysis : Except Unit AnalysisResult)
    (user_input : String) (a : Agent α) : (String × Bool) × Agent α :=
  match analysis with
  | .ok r =>
    if r.sufficient then
      ((("了解しました。以下の条件で検索を開始します：\n- 検索クエリ: " ++
          r.extracted_query ++ "\n- 発行年フィルタ: " ++
          (if r.year_filter ≠ "" then r.year_filter else "指定なし") ++
          "\n- 取得件数: " ++ r.max_results ++ "件\n\n検索を実行しますか？"), true),
        { a with collected_info :=
            { query := r.extracted_query, year_filter := r.year_filter,
              max_results := r.max_results } })
    else
      ((r.question, false), a)
  | .error _ =>
    ((("了解しました。'" ++ user_input ++ "' で検索を開始します。"), true),
      { a with collected_info :=
          { query := user_input, year_filter := "", max_results := "25" } })

/-- `PaperResearchAgent.process_user_input` (lines 48-78): append the
user turn, dispatch on the state, and in `COLLECTING_INFO` run the
collection step, append the assistant turn and move to `SEARCHING` when
ready. -/
def process_user_input {α : Type} (analysis : Except Unit AnalysisResult)
    (user_input : String) (a : Agent α) : (String × Bool) × Agent α :=
  let a1 : Agent α := { a with conversation_history :=
      a.conversation_history ++ [{ role := "user", content := user_input }] }
  match a1.state with
  | ConversationState.COLLECTING_INFO =>
    let res := collect_information analysis user_input a1
    let a2 : Agent α := { res.2 with conversation_history :=
        res.2.conversation_history ++
          [{ role := "assistant", content := res.1.1 }] }
    if res.1.2 then
      ((res.1.1, true), { a2 with state := ConversationState.SEARCHING })
    else
      ((res.1.1, false), a2)
  | ConversationState.SEARCHING =>
    (("検索を実行中です。しばらくお待ちください。", false), a1)
  | ConversationState.COMPLETED =>
    (("検索は完了しました。新しい検索を開始する場合は、調べたい論文について教えてください。", false), a1)

/-- `PaperResearchAgent.execute_search` (lines 253-299): `outcome` is the
whole `try` block — the search request plus formatting — producing the
formatted papers, or `.error ()` for any raised exception. -/
def execute_search {α : Type} (outcome : Except Unit (List α)) (a : Agent α) :
    List α × Agent α :=
  if a.state ≠ ConversationState.SEARCHING then
    ([], a)
  else
    match outcome with
    | .ok papers =>
      (papers, { a with search_results := papers,
                        state := ConversationState.COMPLETED })
    | .error _ =>
      ([], { a with state := ConversationState.COMPLETED })

/-- `PaperResearchAgent.reset` (lines 320-329). -/
def Agent.reset {α : Type} (_a : Agent α) : Agent α :=
  { state := ConversationState.COLLECTING_INFO,
    conversation_history := [],
    collected_info := defaultCollectedInfo,
    search_results := [] }

/-- C7: `reset`, from any state, returns to `COLLECTING_INFO` with empty
history, the default collected info and no stored results. -/
theorem reset_spec {α : Type} (a : Agent α) :
    a.reset.state = ConversationState.COLLECTING_INFO ∧
    a.reset.conversation_history = [] ∧
    a.reset.collected_info =
      { query := "", year_filter := "", max_results := "25" } ∧
    a.reset.search_results = [] :=
  ⟨rfl, rfl, rfl, rfl⟩

/-- C6: `execute_search` outside `SEARCHING` returns an empty list and
the agent record unchanged in every field. -/
theorem execute_search_not_searching {α : Type}
    (outcome : Except Unit (List α)) (a : Agent α)
    (h : a.state ≠ ConversationState.SEARCHING) :
    execute_search outcome a = ([], a) := by
  simp [execute_search, h]

/-- Witness for C6: a fresh agent in `COLLECTING_INFO`. -/
theorem execute_search_not_searching_witness :
    ((⟨ConversationState.COLLECTING_INFO, [], defaultCollectedInfo, []⟩ :
        Agent Nat).state ≠ ConversationState.SEARCHING) ∧
    execute_search (Except.ok [7])
        (⟨ConversationState.COLLECTING_INFO, [], defaultCollectedInfo, []⟩ :
          Agent Nat) =
      ([], ⟨ConversationState.COLLECTING_INFO, [], defaultCollectedInfo, []⟩) :=
  ⟨by decide,
    execute_search_not_searching (Except.ok [7])
      ⟨ConversationState.COLLECTING_INFO, [], defaultCollectedInfo, []⟩
      (by decide)⟩

/-- C2: from `SEARCHING`, `execute_search` ends in `COMPLETED` whatever
the outcome of the attempt, and returns the empty list when the attempt
raised. -/
theorem execute_search_always_completes {α : Type}
    (outcome : Except Unit (List α)) (a : Agent α)
    (h : a.state = ConversationState.SEARCHING) :
    (execute_search outcome a).2.state = ConversationState.COMPLETED ∧
    (execute_search (Except.error ()) a).1 = ([] : List α) := by
  have h' : ¬ a.state ≠ ConversationState.SEARCHING := by simp [h]
  constructor
  · cases outcome <;> simp [execute_search, h']
  · simp [execute_search, h']

/-- Witness for C2: an agent in `SEARCHING` with a failed attempt. -/
theorem execute_search_always_completes_witness :
    ((⟨ConversationState.SEARCHING, [], defaultCollectedInfo, []⟩ :
        Agent Nat).state = ConversationState.SEARCHING) ∧
    ((execute_search (Except.error ())
        (⟨ConversationState.SEARCHING, [], defaultCollectedInfo, []⟩ :
          Agent Nat)).2.state = ConversationState.COMPLETED ∧
      (execute_search (Except.error ())
        (⟨ConversationState.SEARCHING, [], defaultCollectedInfo, []⟩ :
          Agent Nat)).1 = ([] : List Nat)) :=
  ⟨by decide,
    execute_search_always_completes (Except.error ())
      ⟨ConversationState.SEARCHING, [], defaultCollectedInfo, []⟩ rfl⟩

/-- C8: in `COLLECTING_INFO`, when the analysis step raises on input `X`,
the catch-all stores `X` as the query (with empty year filter and
`"25"` max results), reports ready-to-search, and the agent moves to
`SEARCHING`. -/
theorem process_user_input_error_fallback {α : Type} (a : Agent α) (X : String)
    (h : a.state = ConversationState.COLLECTING_INFO) :
    (process_user_input (Except.error ()) X a).2.collected_info =
      { query := X, year_filter := "", max_results := "25" } ∧
    (process_user_input (Except.error ()) X a).1.2 = true ∧
    (process_user_input (Except.error ()) X a).2.state =
      ConversationState.SEARCHING := by
  simp [process_user_input, collect_information, h]

/-- Witness for C8: a fresh agent and the input `"X"`. -/
theorem process_user_input_error_fallback_witness :
    ((⟨ConversationState.COLLECTING_INFO, [], defaultCollectedInfo, []⟩ :
        Agent Nat).state = ConversationState.COLLECTING_INFO) ∧
    ((process_user_input (Except.error ()) "X"
        (⟨ConversationState.COLLECTING_INFO, [], defaultCollectedInfo, []⟩ :
          Agent Nat)).2.collected_info =
        { query := "X", year_filter := "", max_results := "25" } ∧
      (process_user_input (Except.error ()) "X"
        (⟨ConversationState.COLLECTING_INFO, [], defaultCollectedInfo, []⟩ :
          Agent Nat)).1.2 = true ∧
      (process_user_input (Except.error ()) "X"
        (⟨ConversationState.COLLECTING_INFO, [], defaultCollectedInfo, []⟩ :
          Agent Nat)).2.state = ConversationState.SEARCHING) :=
  ⟨rfl,
    process_user_input_error_fallback
      ⟨ConversationState.COLLECTING_INFO, [], defaultCollectedInfo, []⟩ "X" rfl⟩
